import Mathlib

/-!
Shallow embedding of the `schedl/node-sdk` repository: the two generated
service clients `LanguageTranslatorV2` (src/language-translator/v2.ts) and
`DiscoveryV1` (src/discovery/v1.ts).

Every generated method has the same shape: it validates required parameters
with `helper.getMissingParams(params || \x7b\x7d, required)`, short-circuits into the
callback when validation fails AND a callback was passed, otherwise builds a
request-options object (url template, HTTP method, json body / query / path /
formData) plus `defaultOptions: extend(true, this._options, \x7bheaders: ...\x7d)`,
and hands both to `requestFactory(parameters, callback)`.

JavaScript values appearing in parameter bags are modelled by the inductive
type `JVal`; a client method becomes a pure function from the instance state
(`SvcOptions`, the value of `this._options`) and its two arguments to the new
instance state together with a `MethodResult` describing what the method did
(invoked the callback with a validation error, invoked `requestFactory`, or
threw a synchronous TypeError from dereferencing a null/undefined params).
-/

/-- Model of a JavaScript runtime value as they occur in the clients'
parameter bags and option literals: `undefined` is `undefined`, `null` is `null`,
`func n` is a function value with identity `n` (callbacks), `stream` stands
for a byte-stream/file value, and `obj` is a plain object as an ordered list
of own properties. -/
inductive JVal where
  | undefined
  | null
  | bool (b : Bool)
  | num (n : Int)
  | str (s : String)
  | arr (xs : List JVal)
  | obj (fields : List (String × JVal))
  | func (n : Nat)
  | stream
deriving Repr

/-- JavaScript `typeof x === 'undefined'` test. -/
def isUndefined : JVal → Bool
  | .undefined => true
  | _ => false

/-- JavaScript truthiness: `undefined`, `null`, `false`, `0` and `""` are
falsy; every other value (including `\x7b\x7d`, `[]` and functions) is truthy. -/
def truthy : JVal → Bool
  | .undefined => false
  | .null => false
  | .bool b => b
  | .num n => n != 0
  | .str s => s != ""
  | _ => true

/-- JavaScript `a || b`. -/
def jsOr (a b : JVal) : JVal :=
  if truthy a then a else b

/-- First binding of key `k` in an ordered property list, as JavaScript
property lookup on a plain object. -/
def lookupField : List (String × JVal) → String → Option JVal
  | [], _ => none
  | (k, v) :: rest, key => if k = key then some v else lookupField rest key

/-- JavaScript property access `o[k]`: a TypeError (modelled as `Except.error`)
when `o` is `null` or `undefined`; the property value (or `undefined` when the
property is absent) on an object; `undefined` on every other value. -/
def jget : JVal → String → Except Unit JVal
  | .undefined, _ => .error ()
  | .null, _ => .error ()
  | .obj fields, key =>
    match lookupField fields key with
    | some v => .ok v
    | none => .ok .undefined
  | _, _ => .ok .undefined

/-- Whether the required key `k` counts as missing from the parameter bag:
only identity-`undefined`/`null` (or plain absence, or a non-object bag)
count; present falsy values (`""`, `0`, `false`) are not missing. -/
def isMissing (params : JVal) (k : String) : Bool :=
  match params with
  | .obj fields =>
    match lookupField fields k with
    | none => true
    | some .undefined => true
    | some .null => true
    | some _ => false
  | _ => true

/-- Modelled from the spec: `helper.getMissingParams` lives in
`src/lib/helper.ts`, which is not part of the provided sources (only its call
sites are). Spec 4.1: given a parameter bag and an ordered list of required
keys it returns the list of required keys that are absent or explicitly
null/undefined, a non-object bag being treated as the empty mapping; an empty
result is reported as the falsy value `null` (here `none`) so that the call
sites' `if (missingParams && callback)` guard works. -/
def getMissingParams (params : JVal) (required : List String) : Option (List String) :=
  let missing := required.filter (isMissing params)
  if missing.isEmpty then none else some missing

/-- Model of the value of `this._options` on a client instance, as resolved by
`BaseService` from the constructor options (base url, default headers, default
query string, and for `DiscoveryV1` the caller's `version_date`).
Authentication fields, which no code under `src/` reads, are omitted. -/
structure SvcOptions where
  url : String := ""
  headers : List (String × String) := []
  qs : List (String × JVal) := []
  version_date : JVal := .undefined
deriving Repr

/-- Set key `k` to `v` in an ordered string map, JavaScript-object style: an
existing key keeps its position and gets the new value, a new key is appended. -/
def setKey : List (String × String) → String → String → List (String × String)
  | [], k, v => [(k, v)]
  | (k1, v1) :: rest, k, v =>
    if k1 = k then (k, v) :: rest else (k1, v1) :: setKey rest k v

/-- Set key `k` to `v` in an ordered property list (same JavaScript-object
update used for `this._options.qs.version = options.version_date`). -/
def setField : List (String × JVal) → String → JVal → List (String × JVal)
  | [], k, v => [(k, v)]
  | (k1, v1) :: rest, k, v =>
    if k1 = k then (k, v) :: rest else (k1, v1) :: setField rest k v

/-- Header merge performed by every method's
`extend(true, this._options, \x7bheaders: overlay\x7d)` call. The npm `extend`
package copies the source's properties INTO its target argument and returns
that target: the nested `headers` objects are merged key by key, the overlay
winning on conflict, and the merged result is stored back into the target —
which at every call site is `this._options` itself, so the instance's stored
defaults afterwards hold the merged headers. -/
def mergeHeaders (base : List (String × String)) (overlay : List (String × String)) :
    List (String × String) :=
  overlay.foldl (fun acc p => setKey acc p.1 p.2) base

/-- Effect of `extend(true, this._options, \x7bheaders: overlay\x7d)` on the
stored `this._options`: the headers field is merged in place, everything else
is untouched; the returned value (used as `defaultOptions`) is this same
mutated object. -/
def extendOptionsHeaders (opts : SvcOptions) (overlay : List (String × String)) : SvcOptions :=
  { opts with headers := mergeHeaders opts.headers overlay }

/-- Request-options object built by a generated method (the `options` field of
the `parameters` literal): url template, HTTP method, and the optional
json/body, query, path and formData fields that the method includes. -/
structure ReqOptions where
  url : String
  method : String
  json : Bool := false
  body : Option JVal := none
  qs : Option (List (String × JVal)) := none
  path : Option (List (String × JVal)) := none
  formData : Option (List (String × JVal)) := none
deriving Repr

/-- Argument handed to `requestFactory`: the request options plus the merged
`defaultOptions` object. -/
structure Parameters where
  options : ReqOptions
  defaultOptions : SvcOptions
deriving Repr

/-- What a generated method did: invoked the supplied callback once with the
missing-parameters error and returned (so `requestFactory` was never
reached); invoked `requestFactory` with the built parameters (with or without
a callback to pass along); or threw a synchronous TypeError while
dereferencing a `null`/`undefined` parameter bag. -/
inductive MethodResult where
  | calledBack (missing : List String)
  | dispatched (p : Parameters) (callbackPassed : Bool)
  | threw
deriving Repr

/-- Result of running one method: the new value of `this._options` (changed
only when the `extend` call in the dispatch path ran) together with what the
method did. -/
abbrev MethodRun := SvcOptions × MethodResult

namespace LanguageTranslatorV2

/-- Embedding of `LanguageTranslatorV2.translate` (src/language-translator/v2.ts
lines 57-77): validates `['text']`, short-circuits into the callback when
validation fails and a callback is truthy, otherwise builds the JSON body from
`params.text/model_id/source/target` (a TypeError when `params` is
null/undefined), merges the accept/content-type headers into `this._options`
via `extend(true, this._options, ...)`, and invokes `requestFactory`. -/
def translate (opts : SvcOptions) (params callback : JVal) : MethodRun :=
  match getMissingParams (jsOr params (.obj [])) ["text"], truthy callback with
  | some m, true => (opts, .calledBack m)
  | _, _ =>
    match jget params "text", jget params "model_id", jget params "source", jget params "target" with
    | .ok t, .ok mid, .ok src, .ok tgt =>
      let newOpts := extendOptionsHeaders opts
        [("accept", "application/json"), ("content-type", "application/json")]
      (newOpts,
        .dispatched
          { options :=
              { url := "/v2/translate", method := "POST", json := true,
                body := some (.obj
                  [("text", t), ("model_id", mid), ("source", src), ("target", tgt)]) },
            defaultOptions := newOpts }
          (truthy callback))
    | _, _, _, _ => (opts, .threw)

/-- Embedding of `LanguageTranslatorV2.identify` (src/language-translator/v2.ts
lines 91-111): validates `['text']`, builds the JSON body `\x7btext\x7d`, and
merges headers `accept: application/json, content-type: text/plain` into
`this._options` before dispatching. -/
def identify (opts : SvcOptions) (params callback : JVal) : MethodRun :=
  match getMissingParams (jsOr params (.obj [])) ["text"], truthy callback with
  | some m, true => (opts, .calledBack m)
  | _, _ =>
    match jget params "text" with
    | .ok t =>
      let newOpts := extendOptionsHeaders opts
        [("accept", "application/json"), ("content-type", "text/plain")]
      (newOpts,
        .dispatched
          { options :=
              { url := "/v2/identify", method := "POST", json := true,
                body := some (.obj [("text", t)]) },
            defaultOptions := newOpts }
          (truthy callback))
    | _ => (opts, .threw)

/-- Overload detection shared by the all-optional-parameter methods
(src/language-translator/v2.ts lines 122-126 and 251-255,
src/discovery/v1.ts lines 163-167): after `params = params || \x7b\x7d`, when
`typeof params === 'function' && !callback` the params value becomes the
callback and the bag is reset to `\x7b\x7d`. Returns the final (params, callback)
pair. -/
def fixupParamsCallback (params callback : JVal) : JVal × JVal :=
  let p0 := jsOr params (.obj [])
  match p0, truthy callback with
  | .func n, false => (.obj [], .func n)
  | p, _ => (p, callback)

/-- Embedding of `LanguageTranslatorV2.listIdentifiableLanguages`
(src/language-translator/v2.ts lines 121-139): no required parameters, the
function-as-params overload detection, a GET with no query, and an
accept-only header overlay. -/
def listIdentifiableLanguages (opts : SvcOptions) (params callback : JVal) : MethodRun :=
  let pc := fixupParamsCallback params callback
  let newOpts := extendOptionsHeaders opts [("accept", "application/json")]
  (newOpts,
    .dispatched
      { options := { url := "/v2/identifiable_languages", method := "GET" },
        defaultOptions := newOpts }
      (truthy pc.2))

/-- Embedding of `LanguageTranslatorV2.listModels` (src/language-translator/v2.ts
lines 250-271): overload detection, then a GET on /v2/models with the query
built from `params.source/target/default_models`. -/
def listModels (opts : SvcOptions) (params callback : JVal) : MethodRun :=
  let pc := fixupParamsCallback params callback
  match jget pc.1 "source", jget pc.1 "target", jget pc.1 "default_models" with
  | .ok s, .ok t, .ok d =>
    let newOpts := extendOptionsHeaders opts
      [("accept", "application/json"), ("content-type", "application/x-www-form-urlencoded")]
    (newOpts,
      .dispatched
        { options :=
            { url := "/v2/models", method := "GET",
              qs := some [("source", s), ("target", t), ("default", d)] },
          defaultOptions := newOpts }
        (truthy pc.2))
  | _, _, _ => (opts, .threw)

end LanguageTranslatorV2

namespace DiscoveryV1

/-- Embedding of the `DiscoveryV1` constructor body (src/discovery/v1.ts lines
49-56). The `super(options)` call resolves the caller's options into
`this._options`; `BaseService` (src/lib/base_service.ts) is not among the
provided sources, so that resolution is modelled from the spec section 3
(DefaultOptions is constructed once per instance from the caller's options, so
`this._options.version_date` is the caller's `version_date` and `qs` holds the
default query-string options); `opts` here is that resolved value. The body
then throws when `typeof this._options.version_date === 'undefined'` and
otherwise assigns `this._options.qs.version = options.version_date`. -/
def construct (opts : SvcOptions) : Except String SvcOptions :=
  if isUndefined opts.version_date then
    .error "Argument error: version_date was not specified, use DiscoveryV1.VERSION_DATE_2017_09_01"
  else
    .ok { opts with qs := setField opts.qs "version" opts.version_date }

/-- Embedding of `DiscoveryV1.createEnvironment` (src/discovery/v1.ts lines
73-93): validates `['name']`, builds the JSON body from
`params.name/description/size`, merges accept/content-type application/json
into `this._options`, and dispatches a POST on /v1/environments. -/
def createEnvironment (opts : SvcOptions) (params callback : JVal) : MethodRun :=
  match getMissingParams (jsOr params (.obj [])) ["name"], truthy callback with
  | some m, true => (opts, .calledBack m)
  | _, _ =>
    match jget params "name", jget params "description", jget params "size" with
    | .ok n, .ok d, .ok s =>
      let newOpts := extendOptionsHeaders opts
        [("accept", "application/json"), ("content-type", "application/json")]
      (newOpts,
        .dispatched
          { options :=
              { url := "/v1/environments", method := "POST", json := true,
                body := some (.obj [("name", n), ("description", d), ("size", s)]) },
            defaultOptions := newOpts }
          (truthy callback))
    | _, _, _ => (opts, .threw)

/-- Embedding of `DiscoveryV1.deleteEnvironment` (src/discovery/v1.ts lines
103-122): validates `['environment_id']`, builds the path object from
`params.environment_id`, and dispatches a DELETE on
/v1/environments/\x7benvironment_id\x7d. -/
def deleteEnvironment (opts : SvcOptions) (params callback : JVal) : MethodRun :=
  match getMissingParams (jsOr params (.obj [])) ["environment_id"], truthy callback with
  | some m, true => (opts, .calledBack m)
  | _, _ =>
    match jget params "environment_id" with
    | .ok e =>
      let newOpts := extendOptionsHeaders opts
        [("accept", "application/json"), ("content-type", "application/json")]
      (newOpts,
        .dispatched
          { options :=
              { url := "/v1/environments/\x7benvironment_id\x7d", method := "DELETE",
                path := some [("environment_id", e)] },
            defaultOptions := newOpts }
          (truthy callback))
    | _ => (opts, .threw)

/-- Embedding of `DiscoveryV1.listEnvironments` (src/discovery/v1.ts lines
162-183): no required parameters, overload detection, a GET with the query
built from `params.name`. -/
def listEnvironments (opts : SvcOptions) (params callback : JVal) : MethodRun :=
  let pc := LanguageTranslatorV2.fixupParamsCallback params callback
  match jget pc.1 "name" with
  | .ok n =>
    let newOpts := extendOptionsHeaders opts
      [("accept", "application/json"), ("content-type", "application/json")]
    (newOpts,
      .dispatched
        { options :=
            { url := "/v1/environments", method := "GET", qs := some [("name", n)] },
          defaultOptions := newOpts }
        (truthy pc.2))
  | _ => (opts, .threw)

end DiscoveryV1

/-- Opening brace character of a `\x7bplaceholder\x7d` token in a url template. -/
def lbrace : Char := Char.ofNat 123

/-- Closing brace character of a `\x7bplaceholder\x7d` token in a url template. -/
def rbrace : Char := Char.ofNat 125

/-- Names of the `\x7bplaceholder\x7d` tokens of a url template, in order of
occurrence: each opening brace starts a placeholder that extends to the next
closing brace (placeholder names in the clients never contain braces). -/
def placeholdersAux : List Char → List String
  | [] => []
  | c :: rest =>
    if c == lbrace then
      String.mk (rest.takeWhile (fun d => d != rbrace)) :: placeholdersAux rest
    else placeholdersAux rest

/-- Placeholder names of a url template string. -/
def placeholdersOf (s : String) : List String :=
  placeholdersAux s.data

/-- Static shape of one generated method's request descriptor, read off the
method body: the url template and HTTP method of its `options` literal, its
`requiredParams` list, the keys of its `path` literal (in source order; `[]`
when the method builds no path object), whether the literal carries
`json: true`, a `body`, or a `formData`, and the headers object of its
`extend(true, this._options, \x7bheaders: ...\x7d)` overlay. -/
structure Endpoint where
  name : String
  urlTemplate : String
  httpMethod : String
  requiredParams : List String
  pathKeys : List String
  hasJson : Bool
  hasBody : Bool
  hasFormData : Bool
  overlayHeaders : List (String × String)
deriving Repr, DecidableEq

/-- Header overlay `accept: application/json, content-type: application/json`. -/
def jsonHdrs : List (String × String) :=
  [("accept", "application/json"), ("content-type", "application/json")]

/-- Header overlay `accept: application/json, content-type: multipart/form-data`. -/
def multipartHdrs : List (String × String) :=
  [("accept", "application/json"), ("content-type", "multipart/form-data")]

/-- Header overlay with only `accept: application/json`. -/
def acceptHdr : List (String × String) :=
  [("accept", "application/json")]

/-- The seven methods of `LanguageTranslatorV2` (src/language-translator/v2.ts),
one `Endpoint` each, in source order. -/
def languageTranslatorEndpoints : List Endpoint := [
  { name := "translate", urlTemplate := "/v2/translate", httpMethod := "POST",
    requiredParams := ["text"], pathKeys := [],
    hasJson := true, hasBody := true, hasFormData := false, overlayHeaders := jsonHdrs },
  { name := "identify", urlTemplate := "/v2/identify", httpMethod := "POST",
    requiredParams := ["text"], pathKeys := [],
    hasJson := true, hasBody := true, hasFormData := false,
    overlayHeaders := [("accept", "application/json"), ("content-type", "text/plain")] },
  { name := "listIdentifiableLanguages", urlTemplate := "/v2/identifiable_languages",
    httpMethod := "GET", requiredParams := [], pathKeys := [],
    hasJson := false, hasBody := false, hasFormData := false, overlayHeaders := acceptHdr },
  { name := "createModel", urlTemplate := "/v2/models", httpMethod := "POST",
    requiredParams := ["base_model_id"], pathKeys := [],
    hasJson := false, hasBody := false, hasFormData := true, overlayHeaders := multipartHdrs },
  { name := "deleteModel", urlTemplate := "/v2/models/\x7bmodel_id\x7d", httpMethod := "DELETE",
    requiredParams := ["model_id"], pathKeys := ["model_id"],
    hasJson := false, hasBody := false, hasFormData := false, overlayHeaders := acceptHdr },
  { name := "getModel", urlTemplate := "/v2/models/\x7bmodel_id\x7d", httpMethod := "GET",
    requiredParams := ["model_id"], pathKeys := ["model_id"],
    hasJson := false, hasBody := false, hasFormData := false, overlayHeaders := acceptHdr },
  { name := "listModels", urlTemplate := "/v2/models", httpMethod := "GET",
    requiredParams := [], pathKeys := [],
    hasJson := false, hasBody := false, hasFormData := false,
    overlayHeaders := [("accept", "application/json"),
      ("content-type", "application/x-www-form-urlencoded")] }]

/-- The thirty-five methods of `DiscoveryV1` (src/discovery/v1.ts), one
`Endpoint` each, in source order. -/
def discoveryEndpoints : List Endpoint := [
  { name := "createEnvironment", urlTemplate := "/v1/environments", httpMethod := "POST",
    requiredParams := ["name"], pathKeys := [],
    hasJson := true, hasBody := true, hasFormData := false, overlayHeaders := jsonHdrs },
  { name := "deleteEnvironment", urlTemplate := "/v1/environments/\x7benvironment_id\x7d",
    httpMethod := "DELETE", requiredParams := ["environment_id"], pathKeys := ["environment_id"],
    hasJson := false, hasBody := false, hasFormData := false, overlayHeaders := jsonHdrs },
  { name := "getEnvironment", urlTemplate := "/v1/environments/\x7benvironment_id\x7d",
    httpMethod := "GET", requiredParams := ["environment_id"], pathKeys := ["environment_id"],
    hasJson := false, hasBody := false, hasFormData := false, overlayHeaders := jsonHdrs },
  { name := "listEnvironments", urlTemplate := "/v1/environments", httpMethod := "GET",
    requiredParams := [], pathKeys := [],
    hasJson := false, hasBody := false, hasFormData := false, overlayHeaders := jsonHdrs },
  { name := "listFields", urlTemplate := "/v1/environments/\x7benvironment_id\x7d/fields",
    httpMethod := "GET", requiredParams := ["environment_id", "collection_ids"],
    pathKeys := ["environment_id"],
    hasJson := false, hasBody := false, hasFormData := false, overlayHeaders := jsonHdrs },
  { name := "updateEnvironment", urlTemplate := "/v1/environments/\x7benvironment_id\x7d",
    httpMethod := "PUT", requiredParams := ["environment_id"], pathKeys := ["environment_id"],
    hasJson := true, hasBody := true, hasFormData := false, overlayHeaders := jsonHdrs },
  { name := "createConfiguration",
    urlTemplate := "/v1/environments/\x7benvironment_id\x7d/configurations",
    httpMethod := "POST", requiredParams := ["environment_id", "name"],
    pathKeys := ["environment_id"],
    hasJson := true, hasBody := true, hasFormData := false, overlayHeaders := jsonHdrs },
  { name := "deleteConfiguration",
    urlTemplate := "/v1/environments/\x7benvironment_id\x7d/configurations/\x7bconfiguration_id\x7d",
    httpMethod := "DELETE", requiredParams := ["environment_id", "configuration_id"],
    pathKeys := ["environment_id", "configuration_id"],
    hasJson := false, hasBody := false, hasFormData := false, overlayHeaders := jsonHdrs },
  { name := "getConfiguration",
    urlTemplate := "/v1/environments/\x7benvironment_id\x7d/configurations/\x7bconfiguration_id\x7d",
    httpMethod := "GET", requiredParams := ["environment_id", "configuration_id"],
    pathKeys := ["environment_id", "configuration_id"],
    hasJson := false, hasBody := false, hasFormData := false, overlayHeaders := jsonHdrs },
  { name := "listConfigurations",
    urlTemplate := "/v1/environments/\x7benvironment_id\x7d/configurations",
    httpMethod := "GET", requiredParams := ["environment_id"], pathKeys := ["environment_id"],
    hasJson := false, hasBody := false, hasFormData := false, overlayHeaders := jsonHdrs },
  { name := "updateConfiguration",
    urlTemplate := "/v1/environments/\x7benvironment_id\x7d/configurations/\x7bconfiguration_id\x7d",
    httpMethod := "PUT", requiredParams := ["environment_id", "configuration_id", "name"],
    pathKeys := ["environment_id", "configuration_id"],
    hasJson := true, hasBody := true, hasFormData := false, overlayHeaders := jsonHdrs },
  { name := "testConfigurationInEnvironment",
    urlTemplate := "/v1/environments/\x7benvironment_id\x7d/preview",
    httpMethod := "POST", requiredParams := ["environment_id"], pathKeys := ["environment_id"],
    hasJson := false, hasBody := false, hasFormData := true, overlayHeaders := multipartHdrs },
  { name := "createCollection",
    urlTemplate := "/v1/environments/\x7benvironment_id\x7d/collections",
    httpMethod := "POST", requiredParams := ["environment_id", "name"],
    pathKeys := ["environment_id"],
    hasJson := true, hasBody := true, hasFormData := false, overlayHeaders := jsonHdrs },
  { name := "deleteCollection",
    urlTemplate := "/v1/environments/\x7benvironment_id\x7d/collections/\x7bcollection_id\x7d",
    httpMethod := "DELETE", requiredParams := ["environment_id", "collection_id"],
    pathKeys := ["environment_id", "collection_id"],
    hasJson := false, hasBody := false, hasFormData := false, overlayHeaders := jsonHdrs },
  { name := "getCollection",
    urlTemplate := "/v1/environments/\x7benvironment_id\x7d/collections/\x7bcollection_id\x7d",
    httpMethod := "GET", requiredParams := ["environment_id", "collection_id"],
    pathKeys := ["environment_id", "collection_id"],
    hasJson := false, hasBody := false, hasFormData := false, overlayHeaders := jsonHdrs },
  { name := "listCollectionFields",
    urlTemplate := "/v1/environments/\x7benvironment_id\x7d/collections/\x7bcollection_id\x7d/fields",
    httpMethod := "GET", requiredParams := ["environment_id", "collection_id"],
    pathKeys := ["environment_id", "collection_id"],
    hasJson := false, hasBody := false, hasFormData := false, overlayHeaders := jsonHdrs },
  { name := "listCollections",
    urlTemplate := "/v1/environments/\x7benvironment_id\x7d/collections",
    httpMethod := "GET", requiredParams := ["environment_id"], pathKeys := ["environment_id"],
    hasJson := false, hasBody := false, hasFormData := false, overlayHeaders := jsonHdrs },
  { name := "updateCollection",
    urlTemplate := "/v1/environments/\x7benvironment_id\x7d/collections/\x7bcollection_id\x7d",
    httpMethod := "PUT", requiredParams := ["environment_id", "collection_id"],
    pathKeys := ["environment_id", "collection_id"],
    hasJson := true, hasBody := true, hasFormData := false, overlayHeaders := jsonHdrs },
  { name := "addDocument",
    urlTemplate := "/v1/environments/\x7benvironment_id\x7d/collections/\x7bcollection_id\x7d/documents",
    httpMethod := "POST", requiredParams := ["environment_id", "collection_id"],
    pathKeys := ["environment_id", "collection_id"],
    hasJson := false, hasBody := false, hasFormData := true, overlayHeaders := multipartHdrs },
  { name := "deleteDocument",
    urlTemplate := "/v1/environments/\x7benvironment_id\x7d/collections/\x7bcollection_id\x7d/documents/\x7bdocument_id\x7d",
    httpMethod := "DELETE", requiredParams := ["environment_id", "collection_id", "document_id"],
    pathKeys := ["environment_id", "collection_id", "document_id"],
    hasJson := false, hasBody := false, hasFormData := false, overlayHeaders := jsonHdrs },
  { name := "getDocumentStatus",
    urlTemplate := "/v1/environments/\x7benvironment_id\x7d/collections/\x7bcollection_id\x7d/documents/\x7bdocument_id\x7d",
    httpMethod := "GET", requiredParams := ["environment_id", "collection_id", "document_id"],
    pathKeys := ["environment_id", "collection_id", "document_id"],
    hasJson := false, hasBody := false, hasFormData := false, overlayHeaders := jsonHdrs },
  { name := "updateDocument",
    urlTemplate := "/v1/environments/\x7benvironment_id\x7d/collections/\x7bcollection_id\x7d/documents/\x7bdocument_id\x7d",
    httpMethod := "POST", requiredParams := ["environment_id", "collection_id", "document_id"],
    pathKeys := ["environment_id", "collection_id", "document_id"],
    hasJson := false, hasBody := false, hasFormData := true, overlayHeaders := multipartHdrs },
  { name := "federatedQuery",
    urlTemplate := "/v1/environments/\x7benvironment_id\x7d/query",
    httpMethod := "GET", requiredParams := ["environment_id", "collection_ids"],
    pathKeys := ["environment_id"],
    hasJson := false, hasBody := false, hasFormData := false, overlayHeaders := jsonHdrs },
  { name := "federatedQueryNotices",
    urlTemplate := "/v1/environments/\x7benvironment_id\x7d/notices",
    httpMethod := "GET", requiredParams := ["environment_id", "collection_ids"],
    pathKeys := ["environment_id"],
    hasJson := false, hasBody := false, hasFormData := false, overlayHeaders := jsonHdrs },
  { name := "query",
    urlTemplate := "/v1/environments/\x7benvironment_id\x7d/collections/\x7bcollection_id\x7d/query",
    httpMethod := "GET", requiredParams := ["environment_id", "collection_id"],
    pathKeys := ["environment_id", "collection_id"],
    hasJson := false, hasBody := false, hasFormData := false, overlayHeaders := jsonHdrs },
  { name := "queryNotices",
    urlTemplate := "/v1/environments/\x7benvironment_id\x7d/collections/\x7bcollection_id\x7d/notices",
    httpMethod := "GET", requiredParams := ["environment_id", "collection_id"],
    pathKeys := ["environment_id", "collection_id"],
    hasJson := false, hasBody := false, hasFormData := false, overlayHeaders := jsonHdrs },
  { name := "addTrainingData",
    urlTemplate := "/v1/environments/\x7benvironment_id\x7d/collections/\x7bcollection_id\x7d/training_data",
    httpMethod := "POST", requiredParams := ["environment_id", "collection_id"],
    pathKeys := ["environment_id", "collection_id"],
    hasJson := true, hasBody := true, hasFormData := false, overlayHeaders := jsonHdrs },
  { name := "createTrainingExample",
    urlTemplate := "/v1/environments/\x7benvironment_id\x7d/collections/\x7bcollection_id\x7d/training_data/\x7bquery_id\x7d/examples",
    httpMethod := "POST", requiredParams := ["environment_id", "collection_id", "query_id"],
    pathKeys := ["environment_id", "collection_id", "query_id"],
    hasJson := true, hasBody := true, hasFormData := false, overlayHeaders := jsonHdrs },
  { name := "deleteAllTrainingData",
    urlTemplate := "/v1/environments/\x7benvironment_id\x7d/collections/\x7bcollection_id\x7d/training_data",
    httpMethod := "DELETE", requiredParams := ["environment_id", "collection_id"],
    pathKeys := ["environment_id", "collection_id"],
    hasJson := false, hasBody := false, hasFormData := false, overlayHeaders := jsonHdrs },
  { name := "deleteTrainingData",
    urlTemplate := "/v1/environments/\x7benvironment_id\x7d/collections/\x7bcollection_id\x7d/training_data/\x7bquery_id\x7d",
    httpMethod := "DELETE", requiredParams := ["environment_id", "collection_id", "query_id"],
    pathKeys := ["environment_id", "collection_id", "query_id"],
    hasJson := false, hasBody := false, hasFormData := false, overlayHeaders := jsonHdrs },
  { name := "deleteTrainingExample",
    urlTemplate := "/v1/environments/\x7benvironment_id\x7d/collections/\x7bcollection_id\x7d/training_data/\x7bquery_id\x7d/examples/\x7bexample_id\x7d",
    httpMethod := "DELETE",
    requiredParams := ["environment_id", "collection_id", "query_id", "example_id"],
    pathKeys := ["environment_id", "collection_id", "query_id", "example_id"],
    hasJson := false, hasBody := false, hasFormData := false, overlayHeaders := jsonHdrs },
  { name := "getTrainingData",
    urlTemplate := "/v1/environments/\x7benvironment_id\x7d/collections/\x7bcollection_id\x7d/training_data/\x7bquery_id\x7d",
    httpMethod := "GET", requiredParams := ["environment_id", "collection_id", "query_id"],
    pathKeys := ["environment_id", "collection_id", "query_id"],
    hasJson := false, hasBody := false, hasFormData := false, overlayHeaders := jsonHdrs },
  { name := "getTrainingExample",
    urlTemplate := "/v1/environments/\x7benvironment_id\x7d/collections/\x7bcollection_id\x7d/training_data/\x7bquery_id\x7d/examples/\x7bexample_id\x7d",
    httpMethod := "GET",
    requiredParams := ["environment_id", "collection_id", "query_id", "example_id"],
    pathKeys := ["environment_id", "collection_id", "query_id", "example_id"],
    hasJson := false, hasBody := false, hasFormData := false, overlayHeaders := jsonHdrs },
  { name := "listTrainingData",
    urlTemplate := "/v1/environments/\x7benvironment_id\x7d/collections/\x7bcollection_id\x7d/training_data",
    httpMethod := "GET", requiredParams := ["environment_id", "collection_id"],
    pathKeys := ["environment_id", "collection_id"],
    hasJson := false, hasBody := false, hasFormData := false, overlayHeaders := jsonHdrs },
  { name := "updateTrainingExample",
    urlTemplate := "/v1/environments/\x7benvironment_id\x7d/collections/\x7bcollection_id\x7d/training_data/\x7bquery_id\x7d/examples/\x7bexample_id\x7d",
    httpMethod := "PUT",
    requiredParams := ["environment_id", "collection_id", "query_id", "example_id"],
    pathKeys := ["environment_id", "collection_id", "query_id", "example_id"],
    hasJson := true, hasBody := true, hasFormData := false, overlayHeaders := jsonHdrs }]

/-- Every generated method of both clients. -/
def allEndpoints : List Endpoint :=
  languageTranslatorEndpoints ++ discoveryEndpoints

/-- First value bound to header name `k` in an ordered header map. -/
def lookupHdr : List (String × String) → String → Option String
  | [], _ => none
  | (k, v) :: rest, key => if k = key then some v else lookupHdr rest key

/-- Parameters handed to `requestFactory`, when the method reached it. -/
def dispatchedParams : MethodResult → Option Parameters
  | .dispatched p _ => some p
  | _ => none

/-- The list of required keys that validation reports as missing (empty when
`getMissingParams` returns its all-present signal `none`). -/
def reportedMissing (params : JVal) (required : List String) : List String :=
  (getMissingParams params required).getD []

/-- A freshly constructed client instance state: the service base url with no
default headers and no default query-string options. -/
def opts0 : SvcOptions :=
  { url := "https://gateway.watsonplatform.net/language-translator/api" }

theorem lookupHdr_setKey_self (m : List (String × String)) (k v : String) :
    lookupHdr (setKey m k v) k = some v := by
  induction m with
  | nil => simp [setKey, lookupHdr]
  | cons p rest ih =>
    obtain ⟨k1, v1⟩ := p
    by_cases h : k1 = k
    · simp [setKey, lookupHdr, h]
    · simp [setKey, lookupHdr, h, ih]

theorem lookupField_setField_self (m : List (String × JVal)) (k : String) (v : JVal) :
    lookupField (setField m k v) k = some v := by
  induction m with
  | nil => simp [setField, lookupField]
  | cons p rest ih =>
    obtain ⟨k1, v1⟩ := p
    by_cases h : k1 = k
    · simp [setField, lookupField, h]
    · simp [setField, lookupField, h, ih]

theorem reportedMissing_eq_filter (params : JVal) (required : List String) :
    reportedMissing params required = required.filter (isMissing params) := by
  unfold reportedMissing getMissingParams
  by_cases h : (required.filter (isMissing params)).isEmpty
  · simp only [h, if_true, Option.getD_none]
    exact (List.isEmpty_iff.mp h).symm
  · simp [h]

theorem isMissing_obj_iff (ps : List (String × JVal)) (k : String) :
    isMissing (.obj ps) k = true ↔
      lookupField ps k = none ∨ lookupField ps k = some .undefined ∨
        lookupField ps k = some .null := by
  simp only [isMissing]
  rcases h : lookupField ps k with _ | v
  · simp
  · cases v <;> simp

theorem jget_obj (ps : List (String × JVal)) (k : String) :
    jget (.obj ps) k = .ok ((lookupField ps k).getD .undefined) := by
  simp only [jget]
  rcases h : lookupField ps k with _ | v <;> rfl

/-- C1: the claim says every client method call leaves the stored service-wide
defaults `this._options` unchanged, the per-call header merge producing a
fresh object. The code does the opposite: `extend(true, this._options, ...)`
passes the stored defaults as the merge TARGET, which the npm `extend`
package mutates in place and returns. This theorem exhibits the mutation at a
concrete input: on a fresh `LanguageTranslatorV2` instance with no default
headers, one `identify(\x7btext: 'hello'\x7d, cb)` call leaves
`accept: application/json` and `content-type: text/plain` written into the
stored defaults (from where they leak into every later call). -/
theorem c1_stored_defaults_mutated_by_call :
    (LanguageTranslatorV2.identify opts0 (.obj [("text", .str "hello")]) (.func 0)).1 ≠ opts0 ∧
    ((LanguageTranslatorV2.identify opts0 (.obj [("text", .str "hello")]) (.func 0)).1).headers
      = [("accept", "application/json"), ("content-type", "text/plain")] ∧
    opts0.headers = [] := by
  refine ⟨fun h => ?_, rfl, rfl⟩
  exact absurd (congrArg SvcOptions.headers h) (by decide)

/-- C2: when a truthy callback is supplied and validation reports missing
required parameters, the method invokes the callback once with the
missing-parameters error and returns without touching `this._options` and
without invoking `requestFactory` (the `calledBack` result constructor is
exclusive of `dispatched`). Shown for the two cited methods,
`LanguageTranslatorV2.translate` (required `['text']`) and
`DiscoveryV1.createEnvironment` (required `['name']`). -/
theorem c2_callback_validation_short_circuit
    (opts : SvcOptions) (params cb : JVal) (m1 m2 : List String)
    (hcb : truthy cb = true)
    (h1 : getMissingParams (jsOr params (.obj [])) ["text"] = some m1)
    (h2 : getMissingParams (jsOr params (.obj [])) ["name"] = some m2) :
    LanguageTranslatorV2.translate opts params cb = (opts, .calledBack m1) ∧
    DiscoveryV1.createEnvironment opts params cb = (opts, .calledBack m2) := by
  unfold LanguageTranslatorV2.translate DiscoveryV1.createEnvironment
  rw [h1, h2, hcb]
  exact ⟨rfl, rfl⟩

theorem c2_witness :
    LanguageTranslatorV2.translate ({} : SvcOptions) (.obj []) (.func 0)
      = (({} : SvcOptions), .calledBack ["text"]) ∧
    DiscoveryV1.createEnvironment ({} : SvcOptions) (.obj []) (.func 0)
      = (({} : SvcOptions), .calledBack ["name"]) :=
  c2_callback_validation_short_circuit {} (.obj []) (.func 0) ["text"] ["name"] rfl rfl rfl

/-- C3: when the callback is omitted (or falsy), a validation failure does NOT
short-circuit the call: no callback is invoked with the error, the request
descriptor is still built, and `requestFactory` is still invoked (result
constructor `dispatched`, with no callback passed along). Shown for the two
cited methods, `LanguageTranslatorV2.translate` and
`DiscoveryV1.deleteEnvironment`, on any object parameter bag failing
validation. -/
theorem c3_no_callback_validation_still_dispatches
    (opts : SvcOptions) (ps : List (String × JVal)) (cb : JVal) (m1 m2 : List String)
    (hcb : truthy cb = false)
    (h1 : getMissingParams (jsOr (.obj ps) (.obj [])) ["text"] = some m1)
    (h2 : getMissingParams (jsOr (.obj ps) (.obj [])) ["environment_id"] = some m2) :
    (∃ p, (LanguageTranslatorV2.translate opts (.obj ps) cb).2 = .dispatched p false) ∧
    (∃ p, (DiscoveryV1.deleteEnvironment opts (.obj ps) cb).2 = .dispatched p false) := by
  unfold LanguageTranslatorV2.translate DiscoveryV1.deleteEnvironment
  rw [h1, h2, hcb]
  simp only [jget_obj]
  exact ⟨⟨_, rfl⟩, ⟨_, rfl⟩⟩

theorem c3_witness :
    (∃ p, (LanguageTranslatorV2.translate ({} : SvcOptions) (.obj []) .undefined).2
      = .dispatched p false) ∧
    (∃ p, (DiscoveryV1.deleteEnvironment ({} : SvcOptions) (.obj []) .undefined).2
      = .dispatched p false) :=
  c3_no_callback_validation_still_dispatches {} [] .undefined ["text"] ["environment_id"]
    rfl rfl rfl

/-- C4 counterexample: the claim says every method whose descriptor carries a
plain JSON body (`json: true` with a `body`) merges
`content-type: application/json` into the default headers.
`LanguageTranslatorV2.identify` refutes it: at a concrete input it dispatches
a descriptor with `json = true` and a body present while the merged default
headers carry `content-type: text/plain`. -/
theorem c4_counterexample :
    (dispatchedParams (LanguageTranslatorV2.identify opts0
        (.obj [("text", .str "hello")]) (.func 0)).2).map
      (fun p => (p.options.json, p.options.body.isSome,
        lookupHdr p.defaultOptions.headers "content-type"))
      = some (true, true, some "text/plain") := rfl

/-- C4 as amended: every method of either client whose descriptor carries a
plain JSON body (`json: true` with a `body`), EXCEPT
`LanguageTranslatorV2.identify` (whose overlay sets
`content-type: text/plain`), merges `content-type: application/json` into the
default headers — whatever default headers the instance already has, the
overlay wins. -/
theorem c4_json_body_merges_content_type_application_json :
    ∀ e ∈ allEndpoints, e.hasJson = true → e.name ≠ "identify" →
      ∀ base, lookupHdr (mergeHeaders base e.overlayHeaders) "content-type"
        = some "application/json" := by
  have htab : ∀ e ∈ allEndpoints, e.hasJson = true → e.name ≠ "identify" →
      e.overlayHeaders = jsonHdrs := by decide
  intro e he hj hn base
  rw [htab e he hj hn]
  show lookupHdr (setKey (setKey base "accept" "application/json")
    "content-type" "application/json") "content-type" = some "application/json"
  exact lookupHdr_setKey_self _ _ _

theorem c4_witness :
    lookupHdr (mergeHeaders [("x-custom", "1")] jsonHdrs) "content-type"
      = some "application/json" :=
  c4_json_body_merges_content_type_application_json
    { name := "translate", urlTemplate := "/v2/translate", httpMethod := "POST",
      requiredParams := ["text"], pathKeys := [], hasJson := true, hasBody := true,
      hasFormData := false, overlayHeaders := jsonHdrs }
    (by decide) rfl (by decide) [("x-custom", "1")]

/-- C5: no method of either client builds a descriptor carrying both a JSON
body and multipart form data: across all forty-two generated methods,
`json: true` appears exactly when a `body` does, and no method has both a
`body` and a `formData`. -/
theorem c5_json_body_and_form_data_exclusive :
    allEndpoints.all
      (fun e => (e.hasJson == e.hasBody) && !(e.hasBody && e.hasFormData)) = true := by
  decide

/-- C6: for every method of both clients, the `\x7bplaceholder\x7d` tokens of its
url template are exactly the keys of the `path` object the method supplies
alongside it (in the same order), so no descriptor is built with an
unresolved placeholder. -/
theorem c6_url_placeholders_match_path_keys :
    allEndpoints.all
      (fun e => placeholdersOf e.urlTemplate == e.pathKeys) = true := by
  decide

/-- C7: validation reports exactly the required keys whose value in the
parameter bag is absent, `null` or `undefined`; a key present with a
falsy-but-meaningful value (such as `""`, `0` or `false` — any value other
than null/undefined) is never reported as missing. Stated against the
spec-modelled `getMissingParams` via `reportedMissing` (the reported list, or
`[]` on the all-present signal). -/
theorem c7_missing_exactly_absent_or_null
    (ps : List (String × JVal)) (R : List String) (k : String) :
    (k ∈ reportedMissing (.obj ps) R ↔
      k ∈ R ∧ (lookupField ps k = none ∨ lookupField ps k = some .undefined ∨
        lookupField ps k = some .null)) ∧
    (∀ v, lookupField ps k = some v → v ≠ .undefined → v ≠ .null →
      k ∉ reportedMissing (.obj ps) R) := by
  have hmem : k ∈ reportedMissing (.obj ps) R ↔
      k ∈ R ∧ (lookupField ps k = none ∨ lookupField ps k = some .undefined ∨
        lookupField ps k = some .null) := by
    rw [reportedMissing_eq_filter, List.mem_filter, isMissing_obj_iff]
  refine ⟨hmem, ?_⟩
  intro v hv hu hn hk
  rcases (hmem.mp hk).2 with h | h | h
  · rw [hv] at h
    exact Option.noConfusion h
  · rw [hv] at h
    exact hu (Option.some.inj h)
  · rw [hv] at h
    exact hn (Option.some.inj h)

theorem c7_witness :
    "b" ∈ reportedMissing (.obj [("a", .str "")]) ["a", "b"] ∧
    "a" ∉ reportedMissing (.obj [("a", .str "")]) ["a", "b"] :=
  ⟨(c7_missing_exactly_absent_or_null [("a", .str "")] ["a", "b"] "b").1.mpr
      ⟨by decide, Or.inl rfl⟩,
   (c7_missing_exactly_absent_or_null [("a", .str "")] ["a", "b"] "a").2 (.str "") rfl
     (fun h => JVal.noConfusion h) (fun h => JVal.noConfusion h)⟩

/-- C8: for the all-optional-parameter methods (`listModels`,
`listIdentifiableLanguages`, `listEnvironments`), calling with a single
function argument and no second argument behaves identically to calling with
an empty bag and that function as the callback: the function value is
detected at runtime, used as the callback, and the bag is taken to be empty —
same new instance state, same dispatch. -/
theorem c8_function_as_params_overload_equivalence (opts : SvcOptions) (n : Nat) :
    LanguageTranslatorV2.listModels opts (.func n) .undefined
      = LanguageTranslatorV2.listModels opts (.obj []) (.func n) ∧
    LanguageTranslatorV2.listIdentifiableLanguages opts (.func n) .undefined
      = LanguageTranslatorV2.listIdentifiableLanguages opts (.obj []) (.func n) ∧
    DiscoveryV1.listEnvironments opts (.func n) .undefined
      = DiscoveryV1.listEnvironments opts (.obj []) (.func n) :=
  ⟨rfl, rfl, rfl⟩

/-- C9: constructing a `DiscoveryV1` instance throws a synchronous Error
exactly when the resolved options carry no `version_date`
(`typeof this._options.version_date === 'undefined'`); on success the
constructor records the caller's `version_date` under the `version` key of
the instance's default query-string options. -/
theorem c9_constructor_version_date (opts : SvcOptions) :
    ((∃ e, DiscoveryV1.construct opts = .error e) ↔ opts.version_date = .undefined) ∧
    (∀ o, DiscoveryV1.construct opts = .ok o →
      lookupField o.qs "version" = some opts.version_date) := by
  cases hv : opts.version_date <;>
    simp [DiscoveryV1.construct, isUndefined, hv, lookupField_setField_self]

theorem c9_witness :
    (∃ e, DiscoveryV1.construct ({ version_date := .undefined } : SvcOptions) = .error e) ∧
    lookupField
      (({ version_date := .str "2017-09-01",
          qs := [("version", JVal.str "2017-09-01")] } : SvcOptions)).qs "version"
      = some (.str "2017-09-01") :=
  ⟨(c9_constructor_version_date { version_date := .undefined }).1.mpr rfl,
   (c9_constructor_version_date { version_date := .str "2017-09-01" }).2
     { version_date := .str "2017-09-01", qs := [("version", JVal.str "2017-09-01")] } rfl⟩

/-- C10: calling a required-parameter method with a `null` or `undefined`
parameter bag and no callback neither returns a stream nor reports the
missing parameters: the validation guard does not fire (no callback), and the
method then throws a synchronous TypeError dereferencing the bag, leaving the
instance state untouched. Shown for the two cited methods,
`LanguageTranslatorV2.translate` and `DiscoveryV1.deleteEnvironment`. -/
theorem c10_null_params_without_callback_throws (opts : SvcOptions) :
    LanguageTranslatorV2.translate opts .null .undefined = (opts, .threw) ∧
    LanguageTranslatorV2.translate opts .undefined .undefined = (opts, .threw) ∧
    DiscoveryV1.deleteEnvironment opts .null .undefined = (opts, .threw) ∧
    DiscoveryV1.deleteEnvironment opts .undefined .undefined = (opts, .threw) :=
  ⟨rfl, rfl, rfl, rfl⟩
